import Mathlib

/-!
Shallow embedding of `src/streamlit_app.py`: a linear script that resolves an
API credential from a host secret store or an environment variable, constructs
a remote client, issues one generation request, and displays the result either
on a terminal or on an interactive (streamlit) surface.
-/

namespace ChatbotApp

/-- Python truthiness of an optional string: `None` and `""` are falsy
(`if not GEMINI_API_KEY`). -/
def falsy : Option String → Bool
  | none => true
  | some s => s = ""

/-- The dummy object installed when `import streamlit` fails (lines 11-14). -/
structure DummyStreamlit

/-- `DummyStreamlit.get(self, key, default=None)` returns `default` for every
key (lines 12-13). -/
def DummyStreamlit.get (_st : DummyStreamlit) (_key : String)
    (default : Option String) : Option String :=
  default

/-- The ambient state of one process run: whether `import streamlit`
succeeds, the host secret store, the process environment, and the (opaque)
behaviour of the remote client constructor and of `generate_content`.
Exceptions are modelled by their message text (`str(e)`). -/
structure Env where
  streamlitAvailable : Bool
  secrets : String → Option String
  envVars : String → Option String
  clientInit : String → Except String Unit
  generate : String → String → Except String String

/-- One observable step of the script: terminal output (`print`), the four
streamlit output surfaces, client construction (`genai.Client`), and the
outbound network call (`client.models.generate_content`). -/
inductive Event where
  | printLine (s : String)
  | stError (s : String)
  | stHeader (s : String)
  | stCode (s : String)
  | stMarkdown (s : String)
  | clientConstruct (apiKey : String)
  | networkCall (model : String) (contents : String)
deriving DecidableEq, Repr

/-- How a run ends: `sys.exit(code)`, `st.stop()`, or falling off the end of
the script. -/
inductive Outcome where
  | exited (code : Nat)
  | stopped
  | completed
deriving DecidableEq, Repr

/-- The process exit code observable in terminal mode: `sys.exit c` exits
with `c`; a script that runs to its end exits with `0`; `st.stop` does not
terminate the process. -/
def exitCode : Outcome → Option Nat
  | .exited c => some c
  | .stopped => none
  | .completed => some 0

def Event.isNetworkCall : Event → Bool
  | .networkCall _ _ => true
  | _ => false

def Event.isClientConstruct : Event → Bool
  | .clientConstruct _ => true
  | _ => false

/-- Output events written to the terminal stream. -/
def Event.isTerminalOut : Event → Bool
  | .printLine _ => true
  | _ => false

/-- Output events rendered on the interactive (streamlit) surface. -/
def Event.isInteractiveOut : Event → Bool
  | .stError _ => true
  | .stHeader _ => true
  | .stCode _ => true
  | .stMarkdown _ => true
  | _ => false

/-- `st.get key` as seen by line 21: the real store when streamlit imported,
the dummy provider (always `default`, i.e. `none`) otherwise. -/
def stGet (env : Env) (key : String) : Option String :=
  if env.streamlitAvailable then env.secrets key
  else DummyStreamlit.get ⟨⟩ key none

/-- Lines 21-25: `GEMINI_API_KEY = st.get("GEMINI_API_KEY")`; if falsy,
`GEMINI_API_KEY = os.environ.get("GEMINI_API_KEY")`. -/
def resolveCredential (env : Env) : Option String :=
  let k0 := stGet env "GEMINI_API_KEY"
  if falsy k0 then env.envVars "GEMINI_API_KEY" else k0

/-- The string held by a truthy credential. -/
def credentialString : Option String → String
  | none => ""
  | some s => s

/-- Line 65. -/
def model_name : String := "gemini-2.5-flash"

/-- Line 68. -/
def prompt_text : String :=
  "PythonでWebサーバーを構築する最も簡単な方法を、具体的なコードと合わせて教えてください。"

/-- `"=" * 50`. -/
def sep50 : String := String.mk (List.replicate 50 '=')

/-- The diagnostic naming the two credential sources (line 31). -/
def missingKeyHint : String :=
  "Streamlit Secrets または 環境変数 \x27GEMINI_API_KEY\x27 にキーを設定してください。"

/-- The three `print` lines of the missing-credential diagnostic
(lines 29-31), executed unconditionally on that path. -/
def missingKeyLines : List Event :=
  [.printLine "--- ⚠️ エラー ---",
   .printLine "APIキーが設定されていません。",
   .printLine missingKeyHint]

/-- The inline error shown by `st.error` on the missing-credential path
(line 37). -/
def missingKeyStError : String :=
  "APIキーが設定されていません。\x60GEMINI_API_KEY\x60をSecretsまたは環境変数に設定してください。"

/-- The whole script, lines 21-107: the ordered trace of observable events
and the outcome of the run. -/
def run (env : Env) : List Event × Outcome :=
  let cred := resolveCredential env
  if falsy cred then
    if env.streamlitAvailable then
      (missingKeyLines ++ [.stError missingKeyStError], .stopped)
    else
      (missingKeyLines, .exited 1)
  else
    let key := credentialString cred
    match env.clientInit key with
    | .error e =>
      let em := "致命的なエラー: クライアントの初期化に失敗しました: " ++ e
      if env.streamlitAvailable then
        ([.clientConstruct key, .stError em], .stopped)
      else
        ([.clientConstruct key,
          .printLine "--- 致命的なエラー ---",
          .printLine em], .exited 1)
    | .ok _ =>
      let initEvents : List Event :=
        if env.streamlitAvailable then [.clientConstruct key]
        else [.clientConstruct key, .printLine "クライアントの初期化に成功しました。"]
      let headerEvents : List Event :=
        if env.streamlitAvailable then []
        else
          [.printLine ("\n" ++ sep50),
           .printLine ("プロンプト: " ++ prompt_text),
           .printLine ("モデル: " ++ model_name),
           .printLine sep50]
      match env.generate model_name prompt_text with
      | .ok t =>
        let disp : List Event :=
          if env.streamlitAvailable then
            [.stHeader "🤖 Gemini の応答", .stCode prompt_text, .stMarkdown t]
          else
            [.printLine "\n--- 🤖 Geminiの応答 ---",
             .printLine t,
             .printLine "-------------------------"]
        (initEvents ++ headerEvents ++
          [.networkCall model_name prompt_text] ++ disp, .completed)
      | .error e =>
        let em := "API呼び出し中にエラーが発生しました: " ++ e
        let disp : List Event :=
          if env.streamlitAvailable then [.stError em]
          else
            [.printLine "\n--- API呼び出し中にエラーが発生しました ---",
             .printLine ("エラー内容: " ++ e)]
        (initEvents ++ headerEvents ++
          [.networkCall model_name prompt_text] ++ disp, .completed)

/-- Scenario A: streamlit host, secret store holds a key, env unset. -/
def envA : Env where
  streamlitAvailable := true
  secrets := fun k => if k = "GEMINI_API_KEY" then some "k1" else none
  envVars := fun _ => none
  clientInit := fun _ => .ok ()
  generate := fun _ _ => .ok "Hello"

/-- Scenario B/D: terminal host, env var set, everything succeeds. -/
def envB : Env where
  streamlitAvailable := false
  secrets := fun _ => none
  envVars := fun k => if k = "GEMINI_API_KEY" then some "k2" else none
  clientInit := fun _ => .ok ()
  generate := fun _ _ => .ok "Hello"

/-- Scenario C: streamlit host, both credential sources absent. -/
def envC : Env where
  streamlitAvailable := true
  secrets := fun _ => none
  envVars := fun _ => none
  clientInit := fun _ => .ok ()
  generate := fun _ _ => .ok "Hello"

/-- Terminal host, valid credential, client construction throws. -/
def envD : Env where
  streamlitAvailable := false
  secrets := fun _ => none
  envVars := fun k => if k = "GEMINI_API_KEY" then some "k2" else none
  clientInit := fun _ => .error "boom"
  generate := fun _ _ => .ok "Hello"

/-- Scenario E: terminal host, valid credential, the remote call throws. -/
def envE : Env where
  streamlitAvailable := false
  secrets := fun _ => none
  envVars := fun k => if k = "GEMINI_API_KEY" then some "k2" else none
  clientInit := fun _ => .ok ()
  generate := fun _ _ => .error "quota exceeded"

/-- C1: if the secret-store lookup for `GEMINI_API_KEY` yields a non-empty
value, that value becomes the credential and the environment variable is
never consulted (the result is the same for every environment); if the store
yields an empty or absent value, the environment variable of the same name is
consulted next and its value is the result. -/
theorem C1_credential_priority (env : Env) :
    (∀ s : String, stGet env "GEMINI_API_KEY" = some s → s ≠ "" →
      ∀ ev : String → Option String,
        resolveCredential { env with envVars := ev } = some s) ∧
    (falsy (stGet env "GEMINI_API_KEY") = true →
      resolveCredential env = env.envVars "GEMINI_API_KEY") := by
  constructor
  · intro s hs hne ev
    have hst : stGet { env with envVars := ev } "GEMINI_API_KEY" = some s := by
      simpa [stGet] using hs
    simp [resolveCredential, hst, falsy, hne]
  · intro hfal
    simp [resolveCredential, hfal]

/-- Witness for C1 at concrete stores: the secret store of `envA` holds
`"k1"`, so the credential is `"k1"` whatever the environment holds; both
sources of `envC` are absent, so resolution falls through to the
environment. -/
theorem C1_credential_priority_witness :
    resolveCredential { envA with envVars := fun _ => some "zz" } = some "k1" ∧
    resolveCredential envC = envC.envVars "GEMINI_API_KEY" :=
  ⟨(C1_credential_priority envA).1 "k1" (by decide) (by decide)
      (fun _ => some "zz"),
   (C1_credential_priority envC).2 (by decide)⟩

/-- C9: the secret-store lookup never throws on a missing key — it is a total
lookup returning an optional value — and a host without the store is
represented by the no-op dummy provider, whose `get` returns the absent
default for every key; consequently on such a host the store consulted by the
script yields `none` for every key. -/
theorem C9_store_graceful (env : Env) :
    (∀ d : DummyStreamlit, ∀ k dflt, DummyStreamlit.get d k dflt = dflt) ∧
    (env.streamlitAvailable = false → ∀ k, stGet env k = none) := by
  constructor
  · intro _ _ _
    rfl
  · intro h k
    simp [stGet, h, DummyStreamlit.get]

/-- Witness for C9: the dummy provider returns the default on a concrete key,
and on the terminal host `envB` the store yields absent for the credential
key. -/
theorem C9_store_graceful_witness :
    DummyStreamlit.get ⟨⟩ "GEMINI_API_KEY" none = none ∧
    stGet envB "GEMINI_API_KEY" = none :=
  ⟨(C9_store_graceful envB).1 ⟨⟩ "GEMINI_API_KEY" none,
   (C9_store_graceful envB).2 (by decide) "GEMINI_API_KEY"⟩

/-- C10: when the interactive display module is not importable (terminal
mode), the secret store is the no-op dummy provider, so the resolved
credential is exactly the value of the `GEMINI_API_KEY` environment
variable. -/
theorem C10_terminal_credential_is_env (env : Env)
    (h : env.streamlitAvailable = false) :
    resolveCredential env = env.envVars "GEMINI_API_KEY" := by
  simp [resolveCredential, stGet, h, DummyStreamlit.get, falsy]

/-- Witness for C10 on the terminal host `envB`: the credential is the
environment variable value `"k2"`. -/
theorem C10_terminal_credential_is_env_witness :
    resolveCredential envB = envB.envVars "GEMINI_API_KEY" :=
  C10_terminal_credential_is_env envB (by decide)

/-- C2: when both credential sources are empty or absent, the run terminates
before any network call or client construction is attempted; the diagnostic
naming the two expected sources is shown; in terminal mode the process exits
with code 1, and in interactive mode an inline error is shown and execution
halts. -/
theorem C2_missing_credential (env : Env)
    (hst : falsy (stGet env "GEMINI_API_KEY") = true)
    (henv : falsy (env.envVars "GEMINI_API_KEY") = true) :
    Event.printLine missingKeyHint ∈ (run env).1 ∧
    (run env).1.filter Event.isNetworkCall = [] ∧
    (run env).1.filter Event.isClientConstruct = [] ∧
    (env.streamlitAvailable = false → (run env).2 = .exited 1) ∧
    (env.streamlitAvailable = true →
      Event.stError missingKeyStError ∈ (run env).1 ∧
      (run env).2 = .stopped) := by
  have hcred : falsy (resolveCredential env) = true := by
    simp only [resolveCredential, hst, if_true]
    exact henv
  cases hs : env.streamlitAvailable <;>
    simp [run, hcred, hs, missingKeyLines,
      Event.isNetworkCall, Event.isClientConstruct]

/-- Witness for C2 on `envC` (interactive host, both sources absent): the
diagnostic is printed, no network call or client construction occurs, the
inline error is shown, and execution halts. -/
theorem C2_missing_credential_witness :
    Event.printLine missingKeyHint ∈ (run envC).1 ∧
    (run envC).1.filter Event.isNetworkCall = [] ∧
    (run envC).1.filter Event.isClientConstruct = [] ∧
    (envC.streamlitAvailable = false → (run envC).2 = .exited 1) ∧
    (envC.streamlitAvailable = true →
      Event.stError missingKeyStError ∈ (run envC).1 ∧
      (run envC).2 = .stopped) :=
  C2_missing_credential envC (by decide) (by decide)

/-- C3: on every execution the client is constructed at most once; every
client construction carries exactly the resolved credential, which is
non-empty (so construction never precedes successful resolution); and on
every path where the resolved credential is non-absent, construction is
attempted exactly once. -/
theorem C3_client_once (env : Env) :
    ((run env).1.filter Event.isClientConstruct).length ≤ 1 ∧
    (∀ k, Event.clientConstruct k ∈ (run env).1 →
      resolveCredential env = some k ∧ k ≠ "") ∧
    (falsy (resolveCredential env) = false →
      (run env).1.filter Event.isClientConstruct =
        [Event.clientConstruct (credentialString (resolveCredential env))]) := by
  by_cases hf : falsy (resolveCredential env) = true
  · refine ⟨?_, ?_, ?_⟩
    · cases hs : env.streamlitAvailable <;>
        simp [run, hf, hs, missingKeyLines, Event.isClientConstruct]
    · intro k hk
      cases hs : env.streamlitAvailable <;>
        · rw [run] at hk
          simp [hf, hs, missingKeyLines] at hk
    · intro h
      rw [hf] at h
      cases h
  · have hf' : falsy (resolveCredential env) = false :=
      Bool.eq_false_iff.mpr hf
    obtain ⟨s, hs, hne⟩ : ∃ s, resolveCredential env = some s ∧ s ≠ "" := by
      rcases hcred : resolveCredential env with _ | s
      · rw [hcred] at hf'
        simp [falsy] at hf'
      · refine ⟨s, rfl, ?_⟩
        rw [hcred] at hf'
        simpa [falsy] using hf'
    rcases hci : env.clientInit s with e | u <;>
      cases hsa : env.streamlitAvailable <;>
      rcases hg : env.generate model_name prompt_text with e2 | t <;>
      simp [run, hf', hs, credentialString, hci, hg, hsa, falsy,
        Event.isClientConstruct, hne]

/-- Witness for C3 on `envA`: the resolved credential is non-absent and the
trace holds exactly one client construction, carrying that credential. -/
theorem C3_client_once_witness :
    (resolveCredential envA = some "k1" ∧ "k1" ≠ "") ∧
    (run envA).1.filter Event.isClientConstruct =
      [Event.clientConstruct (credentialString (resolveCredential envA))] :=
  ⟨(C3_client_once envA).2.1 "k1" (by decide),
   (C3_client_once envA).2.2 (by decide)⟩

/-- A truthy resolved credential is a non-empty string. -/
theorem resolveCredential_truthy (env : Env)
    (hf : falsy (resolveCredential env) = false) :
    ∃ s, resolveCredential env = some s ∧ s ≠ "" := by
  rcases hcred : resolveCredential env with _ | s
  · rw [hcred] at hf
    simp [falsy] at hf
  · refine ⟨s, rfl, ?_⟩
    rw [hcred] at hf
    simpa [falsy] using hf

/-- C4: when client construction throws, the surfaced message wraps the
underlying cause text; in terminal mode the process exits with code 1, in
interactive mode an inline error is shown and execution halts; and no network
call is ever attempted. -/
theorem C4_client_init_failure (env : Env) (e : String)
    (hc : falsy (resolveCredential env) = false)
    (hi : env.clientInit (credentialString (resolveCredential env)) =
      .error e) :
    (env.streamlitAvailable = false →
      Event.printLine ("致命的なエラー: クライアントの初期化に失敗しました: " ++ e) ∈ (run env).1 ∧
      (run env).2 = .exited 1) ∧
    (env.streamlitAvailable = true →
      Event.stError ("致命的なエラー: クライアントの初期化に失敗しました: " ++ e) ∈ (run env).1 ∧
      (run env).2 = .stopped) ∧
    (run env).1.filter Event.isNetworkCall = [] := by
  obtain ⟨s, hs, hne⟩ := resolveCredential_truthy env hc
  rw [hs] at hi
  simp only [credentialString] at hi
  cases hsa : env.streamlitAvailable <;>
    simp [run, hs, credentialString, hi, hsa, falsy, hne,
      Event.isNetworkCall]

/-- Witness for C4 on `envD` (terminal host, construction throws `"boom"`):
the wrapped message is printed, the run exits with code 1, and no network
call occurs. -/
theorem C4_client_init_failure_witness :
    (envD.streamlitAvailable = false →
      Event.printLine ("致命的なエラー: クライアントの初期化に失敗しました: " ++ "boom") ∈ (run envD).1 ∧
      (run envD).2 = .exited 1) ∧
    (envD.streamlitAvailable = true →
      Event.stError ("致命的なエラー: クライアントの初期化に失敗しました: " ++ "boom") ∈ (run envD).1 ∧
      (run envD).2 = .stopped) ∧
    (run envD).1.filter Event.isNetworkCall = [] :=
  C4_client_init_failure envD "boom" (by decide) rfl

/-- C5: every run that reaches dispatch issues exactly one request, carrying
exactly the fixed model identifier `gemini-2.5-flash` and the fixed prompt
text of the run. -/
theorem C5_single_dispatch (env : Env)
    (hc : falsy (resolveCredential env) = false)
    (hi : env.clientInit (credentialString (resolveCredential env)) =
      .ok ()) :
    model_name = "gemini-2.5-flash" ∧
    (run env).1.filter Event.isNetworkCall =
      [Event.networkCall model_name prompt_text] := by
  obtain ⟨s, hs, hne⟩ := resolveCredential_truthy env hc
  rw [hs] at hi
  simp only [credentialString] at hi
  refine ⟨rfl, ?_⟩
  cases hsa : env.streamlitAvailable <;>
    rcases hg : env.generate model_name prompt_text with e2 | t <;>
    simp [run, hs, credentialString, hi, hg, hsa, falsy, hne,
      Event.isNetworkCall]

/-- Witness for C5 on `envB`: the trace holds exactly the one network call
with the fixed model and prompt. -/
theorem C5_single_dispatch_witness :
    model_name = "gemini-2.5-flash" ∧
    (run envB).1.filter Event.isNetworkCall =
      [Event.networkCall model_name prompt_text] :=
  C5_single_dispatch envB (by decide) rfl

/-- C6: every successful dispatch displays exactly the response text returned
by the remote call, unmodified, on the surface of the active mode
(`st.markdown` interactively, `print` on the terminal). -/
theorem C6_success_display (env : Env) (t : String)
    (hc : falsy (resolveCredential env) = false)
    (hi : env.clientInit (credentialString (resolveCredential env)) = .ok ())
    (hg : env.generate model_name prompt_text = .ok t) :
    (env.streamlitAvailable = true → Event.stMarkdown t ∈ (run env).1) ∧
    (env.streamlitAvailable = false → Event.printLine t ∈ (run env).1) := by
  obtain ⟨s, hs, hne⟩ := resolveCredential_truthy env hc
  rw [hs] at hi
  simp only [credentialString] at hi
  cases hsa : env.streamlitAvailable <;>
    simp [run, hs, credentialString, hi, hg, hsa, falsy, hne]

/-- Witness for C6 on `envB` (terminal host, remote call returns `"Hello"`):
the displayed output holds exactly `"Hello"`. -/
theorem C6_success_display_witness :
    (envB.streamlitAvailable = true →
      Event.stMarkdown "Hello" ∈ (run envB).1) ∧
    (envB.streamlitAvailable = false →
      Event.printLine "Hello" ∈ (run envB).1) :=
  C6_success_display envB "Hello" (by decide) rfl rfl

/-- C7: when the dispatch call throws, the run still completes (the exception
does not escape the top-level run, and in terminal mode the process exits
with code 0), and the displayed error output contains the underlying cause
text. -/
theorem C7_dispatch_failure (env : Env) (e : String)
    (hc : falsy (resolveCredential env) = false)
    (hi : env.clientInit (credentialString (resolveCredential env)) = .ok ())
    (hg : env.generate model_name prompt_text = .error e) :
    (run env).2 = .completed ∧
    exitCode (run env).2 = some 0 ∧
    (env.streamlitAvailable = false →
      Event.printLine ("エラー内容: " ++ e) ∈ (run env).1) ∧
    (env.streamlitAvailable = true →
      Event.stError ("API呼び出し中にエラーが発生しました: " ++ e) ∈ (run env).1) := by
  obtain ⟨s, hs, hne⟩ := resolveCredential_truthy env hc
  rw [hs] at hi
  simp only [credentialString] at hi
  cases hsa : env.streamlitAvailable <;>
    simp [run, hs, credentialString, hi, hg, hsa, falsy, hne, exitCode]

/-- Witness for C7 on `envE` (terminal host, remote call throws
`"quota exceeded"`): the run completes with exit code 0 and the printed error
line carries the cause text. -/
theorem C7_dispatch_failure_witness :
    (run envE).2 = .completed ∧
    exitCode (run envE).2 = some 0 ∧
    (envE.streamlitAvailable = false →
      Event.printLine ("エラー内容: " ++ "quota exceeded") ∈ (run envE).1) ∧
    (envE.streamlitAvailable = true →
      Event.stError ("API呼び出し中にエラーが発生しました: " ++ "quota exceeded") ∈
        (run envE).1) :=
  C7_dispatch_failure envE "quota exceeded" (by decide) rfl rfl

/-- C8 counterexample: in interactive mode with both credential sources
absent, the run emits terminal-stream outputs (the `print` diagnostic of
lines 29-31 runs before the mode branch) and an interactive output in the
same run — the two display modes mix, refuting the claim that every output
goes to the selected mode. -/
theorem C8_mode_mixing_counterexample :
    envC.streamlitAvailable = true ∧
    Event.printLine "--- ⚠️ エラー ---" ∈ (run envC).1 ∧
    Event.stError missingKeyStError ∈ (run envC).1 ∧
    (run envC).1.filter Event.isTerminalOut ≠ [] ∧
    (run envC).1.filter Event.isInteractiveOut ≠ [] := by
  decide

/-- C8 amended: the environment-detection signal is one fixed boolean of the
run, terminal mode never emits interactive outputs, and in interactive mode
the only terminal-stream outputs are the three missing-credential diagnostic
lines, emitted only when credential resolution fails; every other output goes
to the selected mode. -/
theorem C8_mode_separation_amended (env : Env) :
    (env.streamlitAvailable = false →
      (run env).1.filter Event.isInteractiveOut = []) ∧
    (env.streamlitAvailable = true →
      ∀ s, Event.printLine s ∈ (run env).1 →
        falsy (resolveCredential env) = true ∧
        Event.printLine s ∈ missingKeyLines) := by
  by_cases hf : falsy (resolveCredential env) = true
  · cases hsa : env.streamlitAvailable <;>
      simp [run, hf, hsa, missingKeyLines, Event.isInteractiveOut]
  · have hf' : falsy (resolveCredential env) = false :=
      Bool.eq_false_iff.mpr hf
    obtain ⟨s, hs, hne⟩ := resolveCredential_truthy env hf'
    rcases hci : env.clientInit s with e | u <;>
      cases hsa : env.streamlitAvailable <;>
      rcases hg : env.generate model_name prompt_text with e2 | t <;>
      simp [run, hf', hs, credentialString, hci, hg, hsa, falsy, hne,
        Event.isInteractiveOut]

/-- Witness for the amended C8 on `envB` (terminal host): no interactive
output occurs in the whole run. -/
theorem C8_mode_separation_amended_witness :
    (run envB).1.filter Event.isInteractiveOut = [] :=
  (C8_mode_separation_amended envB).1 (by decide)

end ChatbotApp
